import Mathlib

/-!
Shallow embedding of the Image Analyzer application (src/app.py) and proofs
about its session gate, image encoder, analyzer operation and activity log.
-/

namespace ImageAnalyzer

/-- Python string truthiness: a string is truthy iff it is non-empty.
Used by `if user_name:` (src/app.py line 115), `if not user_text:`
(line 133) and `if response:` (line 147). -/
def pyTruthy (s : String) : Bool := s ≠ ""

/-- A Python value that is either `None` or a string; the analyzer returns
such a value (src/app.py lines 80 and 83), and the API message content can
itself be `None` or a string. -/
inductive PyVal where
  | none
  | str (s : String)
deriving DecidableEq, Repr

/-- Python truthiness of the values the program tests with `if response:`
(src/app.py line 147): `None` is falsy, a string is truthy iff non-empty. -/
def PyVal.truthy : PyVal → Bool
  | PyVal.none => false
  | PyVal.str s => pyTruthy s

/-- The string carried by a `PyVal`, empty for `None`. -/
def PyVal.asString : PyVal → String
  | PyVal.none => ""
  | PyVal.str s => s

/-- One structured activity-log line as written by `log_activity`
(src/app.py lines 25-27): actor, activity label, boolean outcome. -/
structure ActivityLogEntry where
  actor : String
  activity : String
  status : Bool
deriving DecidableEq, Repr

/-- Embedding of `log_activity` (src/app.py lines 25-27): it formats and
appends exactly one structured entry per call. -/
def log_activity (user_name : String) (activity : String) (status : Bool) :
    ActivityLogEntry :=
  { actor := user_name, activity := activity, status := status }

/-- An in-memory decoded bitmap: its PIL mode string and an abstract pixel
payload identifier. -/
structure Bitmap where
  mode : String
  data : Nat
deriving DecidableEq, Repr

/-- PIL modes that carry an alpha channel: RGBA, LA (grayscale with alpha)
and PA (palette with alpha). -/
def hasAlpha (m : String) : Bool :=
  m = "RGBA" || m = "LA" || m = "PA"

/-- Embedding of `image.convert('RGB')` (src/app.py line 31): produces the
same pixels reinterpreted in the opaque 3-channel RGB mode. -/
def convertRGB (img : Bitmap) : Bitmap :=
  { img with mode := "RGB" }

/-- The bytes of a serialized JPEG: the mode of the image that was saved and
its abstract pixel payload. -/
structure JpegBytes where
  savedMode : String
  data : Nat
deriving DecidableEq, Repr

/-- Modes the external imaging library (Pillow) can write as JPEG: the keys
of `JpegImagePlugin.RAWMODE`. `image.save(buffered, format="JPEG")`
(src/app.py line 35) raises `OSError("cannot write mode ... as JPEG")` for
any other mode, in particular for the alpha-carrying LA and PA modes. -/
def jpegWritable (m : String) : Bool :=
  m = "1" || m = "L" || m = "RGB" || m = "RGBX" || m = "CMYK" || m = "YCbCr"

/-- Embedding of `image.save(buffered, format="JPEG")` (src/app.py line 35):
returns the serialized bytes, or fails (raises) when the mode is not
JPEG-writable. -/
def jpegSave (img : Bitmap) : Option JpegBytes :=
  if jpegWritable img.mode then some { savedMode := img.mode, data := img.data }
  else Option.none

/-- Decoding a JPEG back to a bitmap yields a mode without alpha: grayscale
input decodes to L, CMYK to CMYK, everything else to RGB. JPEG carries no
alpha channel. -/
def jpegDecodeMode (j : JpegBytes) : String :=
  if j.savedMode = "1" || j.savedMode = "L" then "L"
  else if j.savedMode = "CMYK" then "CMYK"
  else "RGB"

/-- Base64 rendering of JPEG bytes, kept abstract but injective in the saved
bytes (src/app.py line 36). -/
def b64 (j : JpegBytes) : String :=
  "b64(" ++ j.savedMode ++ "," ++ toString j.data ++ ")"

/-- The flattening step of `encode_image_to_base64` (src/app.py lines
30-31): only the exact mode string RGBA is converted to RGB; every other
mode passes through unchanged. -/
def flattenForJpeg (image : Bitmap) : Bitmap :=
  if image.mode = "RGBA" then convertRGB image else image

/-- The serialization part of `encode_image_to_base64`: flatten, then save
as JPEG (src/app.py lines 30-35); `Option.none` models the caught
serialization exception. -/
def encodeSavedJpeg (image : Bitmap) : Option JpegBytes :=
  jpegSave (flattenForJpeg image)

/-- Embedding of `encode_image_to_base64` (src/app.py lines 29-40): convert
RGBA to RGB, save as JPEG, base64-encode with the data-URI header; any
serialization exception is caught and converted to `None`. -/
def encode_image_to_base64 (image : Bitmap) : Option String :=
  match encodeSavedJpeg image with
  | some j => some ("data:image/jpeg;base64," ++ b64 j)
  | Option.none => Option.none

/-- One content part of the single user message (src/app.py lines 57-68):
either the text part or the image-URL part wrapping a data URI. -/
inductive ContentPart where
  | text (t : String)
  | image_url (url : String)
deriving DecidableEq, Repr

/-- One chat message of the request (src/app.py lines 54-70). -/
structure Message where
  role : String
  content : List ContentPart
deriving DecidableEq, Repr

/-- The full request passed to `client.chat.completions.create`
(src/app.py lines 52-76). -/
structure ChatRequest where
  model : String
  messages : List Message
  temperature : Nat
  max_tokens : Nat
  top_p : Nat
  stream : Bool
  stop : Option (List String)
deriving DecidableEq, Repr

/-- The message object inside one completion choice; its `content` field may
be a string or `None`. -/
structure ChoiceMessage where
  content : PyVal
deriving DecidableEq, Repr

/-- One completion choice returned by the API. -/
structure Choice where
  message : ChoiceMessage
deriving DecidableEq, Repr

/-- The completion object returned by the API: a list of choices; the code
consumes `completion.choices[0].message.content` (src/app.py line 78). -/
structure Completion where
  choices : List Choice
deriving DecidableEq, Repr

/-- Outcome of the external client call: either it raises an exception
(auth failure, rate limit, connectivity, malformed response, ...) or it
returns a completion object. -/
inductive ApiOutcome where
  | raises
  | returns (c : Completion)
deriving DecidableEq, Repr

/-- The request construction of `analyze_image_and_text` (src/app.py lines
52-76): one user message holding the prompt text and the image data URI,
with the fixed parameters written in the source. -/
def buildRequest (user_text : String) (image_base64 : String) : ChatRequest :=
  { model := "llama-3.2-11b-vision-preview"
  , messages :=
      [ { role := "user"
        , content := [ContentPart.text user_text,
                      ContentPart.image_url image_base64] } ]
  , temperature := 1
  , max_tokens := 1024
  , top_p := 1
  , stream := false
  , stop := Option.none }

/-- An observable event of a run: an activity-log entry being written, or a
request being issued to the external client. -/
inductive Event where
  | logged (e : ActivityLogEntry)
  | sent (r : ChatRequest)
deriving DecidableEq, Repr

/-- The activity-log entries among a list of events, in order. -/
def logOf (evs : List Event) : List ActivityLogEntry :=
  evs.filterMap fun ev =>
    match ev with
    | Event.logged e => some e
    | Event.sent _ => Option.none

/-- The requests issued among a list of events, in order. -/
def sentOf (evs : List Event) : List ChatRequest :=
  evs.filterMap fun ev =>
    match ev with
    | Event.logged _ => Option.none
    | Event.sent r => some r

/-- The body of the `try` block of `analyze_image_and_text` (src/app.py
lines 44-80): `Except.error ()` models an exception reaching the end of the
`try` block (the explicit raise on encode failure at line 48, a client-layer
exception at lines 52-76, or the IndexError from `choices[0]` at line 78),
paired with the events emitted before control left the block. -/
def analyzeTry (api : ChatRequest → ApiOutcome) (user_name : String)
    (user_text : String) (image : Bitmap) :
    Except Unit PyVal × List Event :=
  match encode_image_to_base64 image with
  | Option.none => (Except.error (), [])
  | some image_base64 =>
    let req := buildRequest user_text image_base64
    let evs := [Event.logged (log_activity user_name "API call" true),
                Event.sent req]
    match api req with
    | ApiOutcome.raises => (Except.error (), evs)
    | ApiOutcome.returns completion =>
      match completion.choices with
      | [] => (Except.error (), evs)
      | c :: _ =>
        (Except.ok c.message.content,
         evs ++ [Event.logged (log_activity user_name "Image analysis" true)])

/-- The value and events produced by one call to `analyze_image_and_text`. -/
structure AnalyzeResult where
  value : PyVal
  events : List Event
deriving DecidableEq, Repr

/-- Embedding of `analyze_image_and_text` (src/app.py lines 43-83): run the
`try` body; any exception is caught by the `except` clause at line 81, which
logs a failed "Image analysis" entry and returns `None`. -/
def analyze_image_and_text (api : ChatRequest → ApiOutcome)
    (user_name : String) (user_text : String) (image : Bitmap) :
    AnalyzeResult :=
  match analyzeTry api user_name user_text image with
  | (Except.ok v, evs) => { value := v, events := evs }
  | (Except.error _, evs) =>
    { value := PyVal.none
    , events :=
        evs ++ [Event.logged (log_activity user_name "Image analysis" false)] }

/-- The per-session state: `st.session_state.user_name`, absent until a
name is accepted (src/app.py lines 107-108). -/
structure Session where
  user_name : Option String
deriving DecidableEq, Repr

/-- Widget state of the welcome screen for one script run: the text in the
name field and whether the Enter button fired (src/app.py lines 113-114). -/
structure GateInputs where
  nameField : String
  enterClicked : Bool
deriving DecidableEq, Repr

/-- An uploaded file; `opens` is the outcome of `Image.open` (src/app.py
line 139), `Option.none` modelling a raised exception on a corrupt file. -/
structure UploadedFile where
  opens : Option Bitmap
deriving DecidableEq, Repr

/-- Widget state of the analyzer view for one script run: prompt field,
file picker, Analyze button, Logout button (src/app.py lines 129-159). -/
structure AnalyzerInputs where
  textField : String
  uploadedFile : Option UploadedFile
  analyzeClicked : Bool
  logoutClicked : Bool
deriving DecidableEq, Repr

/-- What one script run paints on the page, in order. -/
inductive Rendered where
  | welcomeTitle
  | warningEnterName
  | helloTitle (name : String)
  | uploadedImage
  | uploadInfo
  | successBanner
  | resultText (s : String)
  | errorBanner
  | processingErrorBanner
deriving DecidableEq, Repr

/-- The result display of src/app.py lines 147-151: a truthy response gets
the success banner and the text; a falsy one (None or the empty string)
gets the generic error banner. -/
def displayResult (v : PyVal) : List Rendered :=
  if v.truthy then [Rendered.successBanner, Rendered.resultText v.asString]
  else [Rendered.errorBanner]

/-- Everything one script run of `main` produced: the session state after
the run, the events (log entries and requests) in order, and the rendered
page elements in order. -/
structure RunResult where
  session : Session
  events : List Event
  rendered : List Rendered
deriving DecidableEq, Repr

/-- Embedding of `main` (src/app.py lines 86-169) for one script run. When
`user_name` is absent only the welcome screen runs and the function returns
(line 122). Otherwise the analyzer view runs: the prompt defaults to
"Describe the image" when empty (lines 132-134); with a file present the
image is opened, an "Image upload" entry is logged (line 142) and, when the
Analyze button fired, `analyze_image_and_text` runs and its response is
displayed by truthiness (lines 144-151); an exception while opening renders
the processing error and logs "Image processing" failed (lines 152-154);
finally the Logout button clears the session (lines 159-162). -/
def main (api : ChatRequest → ApiOutcome) (s : Session)
    (gate : GateInputs) (anz : AnalyzerInputs) : RunResult :=
  match s.user_name with
  | Option.none =>
    if gate.enterClicked then
      if pyTruthy gate.nameField then
        { session := { user_name := some gate.nameField }
        , events := [Event.logged (log_activity gate.nameField "Login" true)]
        , rendered := [Rendered.welcomeTitle] }
      else
        { session := s
        , events := [Event.logged (log_activity "anonymous" "Login" false)]
        , rendered := [Rendered.welcomeTitle, Rendered.warningEnterName] }
    else
      { session := s, events := [], rendered := [Rendered.welcomeTitle] }
  | some name =>
    let user_text :=
      if pyTruthy anz.textField then anz.textField else "Describe the image"
    let body : List Event × List Rendered :=
      match anz.uploadedFile with
      | Option.none => ([], [Rendered.uploadInfo])
      | some f =>
        match f.opens with
        | Option.none =>
          ([Event.logged (log_activity name "Image processing" false)],
           [Rendered.processingErrorBanner])
        | some image =>
          let upl := Event.logged (log_activity name "Image upload" true)
          if anz.analyzeClicked then
            let r := analyze_image_and_text api name user_text image
            (upl :: r.events,
             Rendered.uploadedImage :: displayResult r.value)
          else
            ([upl], [Rendered.uploadedImage])
    let tail : List Event × Session :=
      if anz.logoutClicked then
        ([Event.logged (log_activity name "Logout" true)],
         { user_name := Option.none })
      else ([], { user_name := some name })
    { session := tail.2
    , events := body.1 ++ tail.1
    , rendered := Rendered.helloTitle name :: body.2 }

/-- A client oracle that always raises (connectivity failure, auth failure,
rate limit, ...). -/
def apiRaises : ChatRequest → ApiOutcome := fun _ => ApiOutcome.raises

/-- A client oracle that returns one choice whose content is the apple
description, as in the end-to-end scenario. -/
def bobApi : ChatRequest → ApiOutcome := fun _ =>
  ApiOutcome.returns
    { choices := [{ message := { content := PyVal.str "A red apple on a table." } }] }

/-- A client oracle that succeeds with a single choice whose content is the
empty string. -/
def emptyContentApi : ChatRequest → ApiOutcome := fun _ =>
  ApiOutcome.returns { choices := [{ message := { content := PyVal.str "" } }] }

/-- Welcome-screen widget state with nothing typed and no click. -/
def gateIdle : GateInputs := { nameField := "", enterClicked := false }

/-- Analyzer-view widget state with nothing entered, no file and no click. -/
def anzIdle : AnalyzerInputs :=
  { textField := ""
  , uploadedFile := Option.none
  , analyzeClicked := false
  , logoutClicked := false }

/-- C1 counterexample: the candidate name " " consists only of whitespace,
yet submitting it does establish a session (user_name becomes " ") and logs
one successful "Login" entry whose actor is " ", because src/app.py line 115
tests Python truthiness (non-emptiness) and never trims. -/
theorem C1_counterexample :
    (" ".toList.all Char.isWhitespace) = true ∧
    (main apiRaises { user_name := Option.none }
        { nameField := " ", enterClicked := true } anzIdle).session.user_name
      = some " " ∧
    logOf (main apiRaises { user_name := Option.none }
        { nameField := " ", enterClicked := true } anzIdle).events
      = [log_activity " " "Login" true] := by
  decide

/-- C1 amended: only for the empty candidate name does submission fail to
establish a session (user_name stays absent) while logging exactly one
failed "Login" entry whose actor is "anonymous"; any non-empty candidate,
whitespace-only ones included, establishes a session. -/
theorem C1_amended_empty_name_rejected (api : ChatRequest → ApiOutcome)
    (anz : AnalyzerInputs) :
    (main api { user_name := Option.none }
        { nameField := "", enterClicked := true } anz).session.user_name
      = Option.none ∧
    logOf (main api { user_name := Option.none }
        { nameField := "", enterClicked := true } anz).events
      = [log_activity "anonymous" "Login" false] := by
  exact ⟨rfl, rfl⟩

/-- C2: for every client oracle, actor, prompt and image, the analyze
operation terminates with a result: its final activity-log entry is an
"Image analysis" entry, and whenever that entry records failure the
returned value is the absent value `None` — every internal failure is
caught at the boundary and converted to that signal plus a log entry, and
no exception escapes. -/
theorem C2_no_exception_escapes (api : ChatRequest → ApiOutcome)
    (user_name user_text : String) (image : Bitmap) :
    (logOf (analyze_image_and_text api user_name user_text image).events).getLast?
      = some (log_activity user_name "Image analysis" true)
    ∨ ((analyze_image_and_text api user_name user_text image).value = PyVal.none
       ∧ (logOf (analyze_image_and_text api user_name user_text image).events).getLast?
           = some (log_activity user_name "Image analysis" false)) := by
  cases henc : encode_image_to_base64 image with
  | none =>
    right
    simp only [analyze_image_and_text, analyzeTry, henc]
    constructor <;> trivial
  | some uri =>
    cases hapi : api (buildRequest user_text uri) with
    | raises =>
      right
      simp only [analyze_image_and_text, analyzeTry, henc, hapi]
      constructor <;> trivial
    | returns completion =>
      cases hch : completion.choices with
      | nil =>
        right
        simp only [analyze_image_and_text, analyzeTry, henc, hapi, hch]
        constructor <;> trivial
      | cons c rest =>
        left
        simp only [analyze_image_and_text, analyzeTry, henc, hapi, hch]
        rfl

/-- C3 counterexample: a bitmap in mode LA (grayscale with alpha) has an
alpha channel, yet encoding it fails, while the same pixels without alpha
(mode L) encode fine — so the failure is due solely to the alpha presence;
src/app.py line 30 flattens only the exact mode RGBA. -/
theorem C3_counterexample :
    hasAlpha "LA" = true ∧
    encode_image_to_base64 { mode := "LA", data := 0 } = Option.none ∧
    encode_image_to_base64 { mode := "L", data := 0 }
      = some ("data:image/jpeg;base64," ++ b64 { savedMode := "L", data := 0 }) := by
  decide

/-- C3 amended: for every bitmap in mode RGBA (the only alpha mode the code
flattens), encoding never fails because of the alpha: the bitmap is first
flattened to opaque RGB, JPEG serialization succeeds, and the encoded
output decodes back to a valid opaque image. -/
theorem C3_amended_rgba_flattened (img : Bitmap) (h : img.mode = "RGBA") :
    encodeSavedJpeg img = some { savedMode := "RGB", data := img.data } ∧
    hasAlpha (jpegDecodeMode { savedMode := "RGB", data := img.data }) = false ∧
    encode_image_to_base64 img
      = some ("data:image/jpeg;base64,"
              ++ b64 { savedMode := "RGB", data := img.data }) := by
  obtain ⟨m, d⟩ := img
  simp only [Bitmap.mode] at h
  subst h
  refine ⟨rfl, rfl, rfl⟩

/-- C3 witness: the amended statement at the concrete RGBA bitmap with
payload 0. -/
theorem C3_witness :
    encodeSavedJpeg { mode := "RGBA", data := 0 }
      = some { savedMode := "RGB", data := 0 } ∧
    hasAlpha (jpegDecodeMode { savedMode := "RGB", data := 0 }) = false ∧
    encode_image_to_base64 { mode := "RGBA", data := 0 }
      = some ("data:image/jpeg;base64," ++ b64 { savedMode := "RGB", data := 0 }) :=
  C3_amended_rgba_flattened { mode := "RGBA", data := 0 } rfl

/-- C4 counterexample: `analyze_image_and_text` applies no default
substitution itself; called with the empty prompt it sends a request whose
text part is empty, a different request from the one sent for
"Describe the image" — the behaviours are not identical. -/
theorem C4_counterexample :
    sentOf (analyze_image_and_text apiRaises "Bob" ""
        { mode := "RGB", data := 0 }).events
      ≠ sentOf (analyze_image_and_text apiRaises "Bob" "Describe the image"
        { mode := "RGB", data := 0 }).events := by
  decide

/-- C4 amended: the default substitution lives in the caller (src/app.py
lines 132-134), before `analyze_image_and_text` is invoked: a script run of
the main view with an empty prompt field behaves identically (same session,
same events, same rendering) to one with "Describe the image" in the field;
the analyzer itself, called directly with the empty string, builds a
request containing the empty prompt text. -/
theorem C4_amended_caller_substitutes_default (api : ChatRequest → ApiOutcome)
    (s : Session) (gate : GateInputs) (file : Option UploadedFile)
    (ac lc : Bool) :
    main api s gate
      { textField := "", uploadedFile := file
      , analyzeClicked := ac, logoutClicked := lc }
      = main api s gate
      { textField := "Describe the image", uploadedFile := file
      , analyzeClicked := ac, logoutClicked := lc } := by
  obtain ⟨u⟩ := s
  cases u with
  | none => rfl
  | some name => rfl

/-- C5: whenever the image encoder fails, `analyze_image_and_text` returns
the absent value, issues no request to the client, and emits exactly one
activity-log entry: a failed "Image analysis" entry — in particular no
"API call" entry. -/
theorem C5_encoder_failure_no_network (api : ChatRequest → ApiOutcome)
    (user_name user_text : String) (image : Bitmap)
    (henc : encode_image_to_base64 image = Option.none) :
    analyze_image_and_text api user_name user_text image
      = { value := PyVal.none
        , events := [Event.logged (log_activity user_name "Image analysis" false)] } ∧
    sentOf (analyze_image_and_text api user_name user_text image).events = [] ∧
    logOf (analyze_image_and_text api user_name user_text image).events
      = [log_activity user_name "Image analysis" false] := by
  simp only [analyze_image_and_text, analyzeTry, henc]
  exact ⟨rfl, rfl, rfl⟩

/-- C5 witness: at the LA-mode bitmap, whose JPEG serialization fails. -/
theorem C5_witness :
    analyze_image_and_text apiRaises "Bob" "hi" { mode := "LA", data := 0 }
      = { value := PyVal.none
        , events := [Event.logged (log_activity "Bob" "Image analysis" false)] } ∧
    sentOf (analyze_image_and_text apiRaises "Bob" "hi"
        { mode := "LA", data := 0 }).events = [] ∧
    logOf (analyze_image_and_text apiRaises "Bob" "hi"
        { mode := "LA", data := 0 }).events
      = [log_activity "Bob" "Image analysis" false] :=
  C5_encoder_failure_no_network apiRaises "Bob" "hi" { mode := "LA", data := 0 }
    (by decide)

/-- C6: whenever encoding succeeds and the client call raises,
`analyze_image_and_text` returns the absent value and its events are, in
order: the successful "API call" log entry, then the request being issued,
then the failed "Image analysis" log entry — exactly two activity-log
entries, with the "API call" entry written before the request is sent. -/
theorem C6_network_failure_logs (api : ChatRequest → ApiOutcome)
    (user_name user_text : String) (image : Bitmap) (uri : String)
    (henc : encode_image_to_base64 image = some uri)
    (hapi : api (buildRequest user_text uri) = ApiOutcome.raises) :
    analyze_image_and_text api user_name user_text image
      = { value := PyVal.none
        , events := [Event.logged (log_activity user_name "API call" true),
                     Event.sent (buildRequest user_text uri),
                     Event.logged (log_activity user_name "Image analysis" false)] } ∧
    logOf (analyze_image_and_text api user_name user_text image).events
      = [log_activity user_name "API call" true,
         log_activity user_name "Image analysis" false] := by
  simp only [analyze_image_and_text, analyzeTry, henc, hapi]
  exact ⟨rfl, rfl⟩

/-- C6 witness: with the always-raising client oracle on an RGB bitmap. -/
theorem C6_witness :
    analyze_image_and_text apiRaises "Bob" "hi" { mode := "RGB", data := 0 }
      = { value := PyVal.none
        , events := [Event.logged (log_activity "Bob" "API call" true),
                     Event.sent (buildRequest "hi"
                       ("data:image/jpeg;base64," ++ b64 { savedMode := "RGB", data := 0 })),
                     Event.logged (log_activity "Bob" "Image analysis" false)] } ∧
    logOf (analyze_image_and_text apiRaises "Bob" "hi"
        { mode := "RGB", data := 0 }).events
      = [log_activity "Bob" "API call" true,
         log_activity "Bob" "Image analysis" false] :=
  C6_network_failure_logs apiRaises "Bob" "hi" { mode := "RGB", data := 0 }
    ("data:image/jpeg;base64," ++ b64 { savedMode := "RGB", data := 0 })
    (by decide) rfl

/-- C7: whenever encoding succeeds and the client returns at least one
choice, `analyze_image_and_text` issues exactly one request — a single
user message carrying the prompt text and the encoded image as a data URI,
with model "llama-3.2-11b-vision-preview", temperature 1, max_tokens 1024,
top_p 1, no streaming and no stop sequences — returns the content of the
first choice, and logs a successful "Image analysis" entry after the
successful "API call" entry. -/
theorem C7_successful_request_shape (api : ChatRequest → ApiOutcome)
    (user_name user_text : String) (image : Bitmap) (uri : String)
    (c : Choice) (rest : List Choice)
    (henc : encode_image_to_base64 image = some uri)
    (hapi : api (buildRequest user_text uri)
      = ApiOutcome.returns { choices := c :: rest }) :
    (analyze_image_and_text api user_name user_text image).value
      = c.message.content ∧
    (analyze_image_and_text api user_name user_text image).events
      = [Event.logged (log_activity user_name "API call" true),
         Event.sent (buildRequest user_text uri),
         Event.logged (log_activity user_name "Image analysis" true)] ∧
    sentOf (analyze_image_and_text api user_name user_text image).events
      = [buildRequest user_text uri] ∧
    buildRequest user_text uri
      = { model := "llama-3.2-11b-vision-preview"
        , messages :=
            [ { role := "user"
              , content := [ContentPart.text user_text,
                            ContentPart.image_url uri] } ]
        , temperature := 1
        , max_tokens := 1024
        , top_p := 1
        , stream := false
        , stop := Option.none } ∧
    (∃ payload, uri = "data:image/jpeg;base64," ++ payload) := by
  refine ⟨?_, ?_, ?_, rfl, ?_⟩
  · simp only [analyze_image_and_text, analyzeTry, henc, hapi]
  · simp only [analyze_image_and_text, analyzeTry, henc, hapi]
    rfl
  · simp only [analyze_image_and_text, analyzeTry, henc, hapi]
    rfl
  · revert henc
    simp only [encode_image_to_base64]
    cases encodeSavedJpeg image with
    | none => intro h; exact absurd h (by simp)
    | some j =>
      intro h
      exact ⟨b64 j, (Option.some.injEq _ _).mp h |>.symm⟩

/-- C7 witness: with the oracle returning the apple description on an RGB
bitmap and the default prompt. -/
theorem C7_witness :
    (analyze_image_and_text bobApi "Bob" "Describe the image"
        { mode := "RGB", data := 0 }).value
      = PyVal.str "A red apple on a table." ∧
    sentOf (analyze_image_and_text bobApi "Bob" "Describe the image"
        { mode := "RGB", data := 0 }).events
      = [buildRequest "Describe the image"
          ("data:image/jpeg;base64," ++ b64 { savedMode := "RGB", data := 0 })] := by
  have h := C7_successful_request_shape bobApi "Bob" "Describe the image"
    { mode := "RGB", data := 0 }
    ("data:image/jpeg;base64," ++ b64 { savedMode := "RGB", data := 0 })
    { message := { content := PyVal.str "A red apple on a table." } } []
    (by decide) rfl
  exact ⟨h.1, h.2.2.1⟩

/-- The script run in which Bob submits his name on the welcome screen. -/
def bobLoginRun : RunResult :=
  main bobApi { user_name := Option.none }
    { nameField := "Bob", enterClicked := true } anzIdle

/-- The script run in which Bob, logged in, has uploaded a valid JPEG
(decoding to an RGB bitmap), left the prompt field empty, and pressed
Analyze, with the mocked API returning the apple description. -/
def bobAnalyzeRun : RunResult :=
  main bobApi bobLoginRun.session gateIdle
    { textField := ""
    , uploadedFile := some { opens := some { mode := "RGB", data := 0 } }
    , analyzeClicked := true
    , logoutClicked := false }

/-- The activity-log trace of the whole end-to-end scenario. -/
def bobTrace : List ActivityLogEntry :=
  logOf bobLoginRun.events ++ logOf bobAnalyzeRun.events

/-- C8 counterexample: in the end-to-end scenario the displayed result is
the apple description, but the scenario produces four activity-log
entries, not three: src/app.py line 142 also logs a successful
"Image upload" entry as soon as a file is present. -/
theorem C8_counterexample :
    Rendered.resultText "A red apple on a table." ∈ bobAnalyzeRun.rendered ∧
    bobTrace.length = 4 ∧
    bobTrace ≠ [log_activity "Bob" "Login" true,
                log_activity "Bob" "API call" true,
                log_activity "Bob" "Image analysis" true] := by
  decide

/-- C8 amended: in the end-to-end scenario the displayed result equals
"A red apple on a table." and exactly four activity-log entries are
produced, in order: Login success, Image upload success, API call success,
Image analysis success. -/
theorem C8_amended_bob_scenario :
    Rendered.resultText "A red apple on a table." ∈ bobAnalyzeRun.rendered ∧
    bobTrace = [log_activity "Bob" "Login" true,
                log_activity "Bob" "Image upload" true,
                log_activity "Bob" "API call" true,
                log_activity "Bob" "Image analysis" true] := by
  decide

/-- C9: whenever `user_name` is absent, a script run of `main` issues no
request to the client, renders only the welcome gate (the welcome title
and possibly the missing-name warning), and its only possible activity-log
entries are "Login" entries — the analyzer view is unreachable without a
session. -/
theorem C9_gate_guards_analyzer (api : ChatRequest → ApiOutcome)
    (s : Session) (gate : GateInputs) (anz : AnalyzerInputs)
    (h : s.user_name = Option.none) :
    sentOf (main api s gate anz).events = [] ∧
    (∀ r ∈ (main api s gate anz).rendered,
      r = Rendered.welcomeTitle ∨ r = Rendered.warningEnterName) ∧
    (∀ e ∈ logOf (main api s gate anz).events, e.activity = "Login") := by
  obtain ⟨u⟩ := s
  simp only [Session.user_name] at h
  subst h
  obtain ⟨nf, ec⟩ := gate
  cases ec <;> by_cases hnf : pyTruthy nf <;>
    simp_all [main, sentOf, logOf, log_activity]

/-- C9 witness: at the empty session with idle widgets and the raising
oracle. -/
theorem C9_witness :
    sentOf (main apiRaises { user_name := Option.none } gateIdle anzIdle).events = [] ∧
    (∀ r ∈ (main apiRaises { user_name := Option.none } gateIdle anzIdle).rendered,
      r = Rendered.welcomeTitle ∨ r = Rendered.warningEnterName) ∧
    (∀ e ∈ logOf (main apiRaises { user_name := Option.none } gateIdle anzIdle).events,
      e.activity = "Login") :=
  C9_gate_guards_analyzer apiRaises { user_name := Option.none } gateIdle anzIdle rfl

/-- C10: when encoding succeeds and the API returns a first choice whose
content is falsy (the empty string or `None`), `analyze_image_and_text`
returns that content and logs "API call" success then "Image analysis"
success, yet the caller's truthiness test (src/app.py line 147) renders the
generic error banner — exactly the rendering of a failed analysis — so at
the user-facing boundary the successful empty-content analysis is
indistinguishable from a failure while the log records a success. -/
theorem C10_empty_content_success (api : ChatRequest → ApiOutcome)
    (user_name user_text : String) (image : Bitmap) (uri : String)
    (content : PyVal)
    (henc : encode_image_to_base64 image = some uri)
    (hapi : api (buildRequest user_text uri)
      = ApiOutcome.returns { choices := [{ message := { content := content } }] })
    (hfalsy : content.truthy = false) :
    (analyze_image_and_text api user_name user_text image).value = content ∧
    logOf (analyze_image_and_text api user_name user_text image).events
      = [log_activity user_name "API call" true,
         log_activity user_name "Image analysis" true] ∧
    displayResult (analyze_image_and_text api user_name user_text image).value
      = [Rendered.errorBanner] ∧
    displayResult PyVal.none = [Rendered.errorBanner] := by
  have hval : (analyze_image_and_text api user_name user_text image).value
      = content := by
    simp only [analyze_image_and_text, analyzeTry, henc, hapi]
  refine ⟨hval, ?_, ?_, rfl⟩
  · simp only [analyze_image_and_text, analyzeTry, henc, hapi]
    rfl
  · rw [hval]
    simp [displayResult, hfalsy]

/-- C10 witness: with the oracle whose single choice has empty string
content, on an RGB bitmap. -/
theorem C10_witness :
    (analyze_image_and_text emptyContentApi "Bob" "Describe the image"
        { mode := "RGB", data := 0 }).value = PyVal.str "" ∧
    logOf (analyze_image_and_text emptyContentApi "Bob" "Describe the image"
        { mode := "RGB", data := 0 }).events
      = [log_activity "Bob" "API call" true,
         log_activity "Bob" "Image analysis" true] ∧
    displayResult (analyze_image_and_text emptyContentApi "Bob" "Describe the image"
        { mode := "RGB", data := 0 }).value
      = [Rendered.errorBanner] ∧
    displayResult PyVal.none = [Rendered.errorBanner] :=
  C10_empty_content_success emptyContentApi "Bob" "Describe the image"
    { mode := "RGB", data := 0 }
    ("data:image/jpeg;base64," ++ b64 { savedMode := "RGB", data := 0 })
    (PyVal.str "") (by decide) rfl (by decide)

end ImageAnalyzer
